import Mathlib

/-!
Verification development for the Wavepack Analyzer v1.3 core backend
(`wavepack_v1_full/app.py`).

The Python source computes with IEEE floats; the embedding models every
numeric value as a real number and every Python exception as an
`Except` error value:

* a `KeyError` raised by a dictionary lookup on the fluid/material
  libraries is modelled as `WavepackError.unknownLookup field value`;
* a `ZeroDivisionError` is modelled as `WavepackError.zeroDivision`.

The `shape` parameter is dispatched in the source by substring tests on
a free-form string (`"Circular" in shape`, `"Staggered" in shape`,
`"Rect" in shape`).  Over the three documented shape values
("Rectangular", "Circular-Inline", "Circular-Staggered") these three
tests are equivalent to exact dispatch on a three-valued enumeration,
which is how `Shape` is modelled here.

`int(x)` applied to a Python float truncates toward zero; this is
`pyInt` below.  `int(sqrt(N_tubes))` for `1 ≤ N_tubes ≤ 2500` equals
the integer square root (double-precision `sqrt` is correctly rounded,
hence exact on perfect squares in this range), modelled by `Nat.sqrt`.
-/

namespace Wavepack

/-- speed of light [m/s] (source line 23). -/
noncomputable def C_LIGHT : ℝ := 2.998e8

/-- inch to meter (source line 24). -/
noncomputable def IN_TO_M : ℝ := 0.0254

/-- foot to meter (source line 25). -/
noncomputable def FT_TO_M : ℝ := 0.3048

/-- pascal to psi (source line 26). -/
noncomputable def PA_TO_PSI : ℝ := 1 / 6894.76

/-- psi to pascal (source line 27). -/
noncomputable def PSI_TO_PA : ℝ := 6894.76

/-- kg to lbm (source line 29). -/
noncomputable def KG_TO_LBM : ℝ := 2.20462

/-- Fluid properties: density [kg/m^3] and dynamic viscosity [Pa s]. -/
structure FluidProperties where
  rho : ℝ
  mu : ℝ

/-- Material properties: density, relative permittivity, relative
permeability, surface roughness. -/
structure MaterialProperties where
  rho : ℝ
  eps_r : ℝ
  mu_r : ℝ
  rough : ℝ

/-- The fluid property library (source lines 37-43). -/
noncomputable def FLUID_LIBRARY : List (String × FluidProperties) :=
  [("Air",      ⟨1.225, 1.81e-5⟩),
   ("Water",    ⟨998,   1.00e-3⟩),
   ("Diesel",   ⟨830,   3.50e-3⟩),
   ("Oil",      ⟨870,   8.00e-3⟩),
   ("Gasoline", ⟨740,   6.00e-4⟩)]

/-- The material property library (source lines 50-56). -/
noncomputable def MATERIAL_LIBRARY : List (String × MaterialProperties) :=
  [("Stainless Steel", ⟨8000, 1.0, 1.05, 1.5e-6⟩),
   ("Aluminum",        ⟨2700, 1.0, 1.0,  1.2e-6⟩),
   ("Copper",          ⟨8960, 1.0, 0.999, 1.0e-6⟩),
   ("Brass",           ⟨8500, 1.0, 1.0,  1.3e-6⟩),
   ("Titanium",        ⟨4500, 1.0, 1.1,  1.7e-6⟩)]

/-- Errors a solve can raise.  `unknownLookup` models a Python
`KeyError` on a property-library access, carrying the offending field
and value; `zeroDivision` models a `ZeroDivisionError`. -/
inductive WavepackError where
  | unknownLookup (field : String) (value : String)
  | zeroDivision
  deriving DecidableEq

/-- `FLUID_LIBRARY[name]`: ok on a known fluid, `KeyError` otherwise. -/
noncomputable def lookupFluid (name : String) : Except WavepackError FluidProperties :=
  match FLUID_LIBRARY.lookup name with
  | some v => .ok v
  | none => .error (.unknownLookup "fluid" name)

/-- `MATERIAL_LIBRARY[name]`: ok on a known material, `KeyError` otherwise. -/
noncomputable def lookupMaterial (name : String) : Except WavepackError MaterialProperties :=
  match MATERIAL_LIBRARY.lookup name with
  | some v => .ok v
  | none => .error (.unknownLookup "material" name)

/-- Python `int()` on a float: truncation toward zero. -/
noncomputable def pyInt (x : ℝ) : ℤ :=
  if 0 ≤ x then ⌊x⌋ else ⌈x⌉

/-- The list `T_range` of `interpolate_fluid_props` (source line 68):
`n_points` equally spaced kelvin temperatures from the converted
Fahrenheit bounds.  A Python `range` over a non-positive bound is
empty, hence `Int.toNat`. -/
noncomputable def tempSamples (T_min_F T_max_F : ℝ) (n_points : ℤ) : List ℝ :=
  (List.range n_points.toNat).map
    (fun i => (T_min_F + 459.67) * 5/9 +
      (i : ℝ) * ((T_max_F + 459.67) * 5/9 - (T_min_F + 459.67) * 5/9) / ((n_points : ℝ) - 1))

/-- The `rho_list` of `interpolate_fluid_props` (source line 73). -/
noncomputable def rhoSamples (base : FluidProperties) (T_min_F T_max_F : ℝ)
    (n_points : ℤ) : List ℝ :=
  (tempSamples T_min_F T_max_F n_points).map (fun T => base.rho * (273.15 / T))

/-- The `mu_list` of `interpolate_fluid_props` (source line 74). -/
noncomputable def muSamples (base : FluidProperties) (T_min_F T_max_F : ℝ)
    (n_points : ℤ) : List ℝ :=
  (tempSamples T_min_F T_max_F n_points).map
    (fun T => base.mu * ((T / 273.15) ^ (1.5 : ℝ)) * (273.15 + 110) / (T + 110))

/-- `interpolate_fluid_props` (source lines 62-78).  Looks the fluid up
(`base = FLUID_LIBRARY[fluid]`), converts the Fahrenheit bounds to
kelvins, and builds `n_points` temperature samples with the
density/viscosity correlations.  When `n_points = 1` the first loop
iteration divides by `n_points - 1 = 0`, a `ZeroDivisionError`; when
`n_points ≤ 0` the `range` is empty and the function returns three empty
lists without any error. -/
noncomputable def interpolate_fluid_props (fluid : String) (T_min_F T_max_F : ℝ)
    (n_points : ℤ) : Except WavepackError (List ℝ × List ℝ × List ℝ) :=
  match lookupFluid fluid with
  | .error e => .error e
  | .ok base =>
    if n_points = 1 then .error .zeroDivision
    else
      .ok (tempSamples T_min_F T_max_F n_points,
           rhoSamples base T_min_F T_max_F n_points,
           muSamples base T_min_F T_max_F n_points)

/-- `reynolds_number` (source lines 90-92). -/
noncomputable def reynolds_number (rho v Dh mu : ℝ) : ℝ :=
  rho * v * Dh / mu

/-- `friction_factor` (source lines 95-100): laminar `64/Re` for
`Re < 2300`, otherwise the explicit Swamee-Jain turbulent form. -/
noncomputable def friction_factor (Re rough Dh : ℝ) : ℝ :=
  if Re < 2300 then 64.0 / Re
  else 0.25 / (Real.logb 10 (rough / (3.7 * Dh) + 5.74 / Re ^ (0.9 : ℝ))) ^ 2

/-- `darcy_weisbach` (source lines 103-105). -/
noncomputable def darcy_weisbach (rho v L Dh f : ℝ) : ℝ :=
  f * (L / Dh) * 0.5 * rho * v ^ 2

/-- Per-frequency attenuation constant α (source lines 116-119 and
129-132): clamped to 1.0 at or below cutoff, otherwise the
propagating-mode expression. -/
noncomputable def alphaOf (fc eps_r mu_r f : ℝ) : ℝ :=
  if f ≤ fc then 1.0
  else (2 * Real.pi / C_LIGHT) * Real.sqrt (mu_r * eps_r * (f ^ 2 - fc ^ 2))

/-- One point of the shielding-effectiveness curve,
`SE = 20*log10(exp(alpha*L))` (source lines 120 and 133). -/
noncomputable def sePoint (fc eps_r mu_r L f : ℝ) : ℝ :=
  20 * Real.logb 10 (Real.exp (alphaOf fc eps_r mu_r f * L))

/-- Rectangular-waveguide cutoff frequency (source line 113). -/
noncomputable def fc_rect (a b eps_r mu_r : ℝ) : ℝ :=
  (C_LIGHT / 2) * Real.sqrt ((1/a) ^ 2 + (1/b) ^ 2) / Real.sqrt (mu_r * eps_r)

/-- `attenuation_rectangular` (source lines 111-121). -/
noncomputable def attenuation_rectangular (a b L eps_r mu_r : ℝ)
    (f_range : List ℝ) : ℝ × List ℝ :=
  (fc_rect a b eps_r mu_r,
   f_range.map (sePoint (fc_rect a b eps_r mu_r) eps_r mu_r L))

/-- Circular TE11 cutoff frequency (source line 126). -/
noncomputable def fc_circ (D eps_r mu_r : ℝ) : ℝ :=
  (1.8412 * C_LIGHT) / (Real.pi * D * Real.sqrt (mu_r * eps_r))

/-- `attenuation_circular` (source lines 124-134). -/
noncomputable def attenuation_circular (D L eps_r mu_r : ℝ)
    (f_range : List ℝ) : ℝ × List ℝ :=
  (fc_circ D eps_r mu_r,
   f_range.map (sePoint (fc_circ D eps_r mu_r) eps_r mu_r L))

/-- The three documented shape values. -/
inductive Shape where
  | rectangular
  | circularInline
  | circularStaggered
  deriving DecidableEq

/-- Open-area ratio (source lines 169-178): 0.9069-scaled circle
packing for staggered, the literal `0.785` for inline circular, `1.0`
for rectangular. -/
noncomputable def openRatioOf (shape : Shape) (D_m : ℝ) : ℝ :=
  match shape with
  | .circularStaggered => 0.9069 * (Real.pi * (D_m / 2) ^ 2) / D_m ^ 2
  | .circularInline => 0.785
  | .rectangular => 1.0

/-- Hydraulic diameter (source lines 175 and 179). -/
noncomputable def hydraulicDiam (shape : Shape) (a_m b_m : ℝ) : ℝ :=
  match shape with
  | .rectangular => 2 * a_m * b_m / (a_m + b_m)
  | _ => a_m

/-- Single-channel cross-section area (source line 184). -/
noncomputable def crossArea (shape : Shape) (a_m b_m : ℝ) : ℝ :=
  match shape with
  | .rectangular => a_m * b_m
  | _ => Real.pi * (a_m / 2) ^ 2

/-- The fixed frequency sweep `[10**x for x in range(5, 11)]`
(source line 196). -/
noncomputable def f_range : List ℝ :=
  (List.range' 5 6).map (fun x => (10 : ℝ) ^ x)

/-- The input configuration of `solve_wavepack` (source lines 141-148).
`config` is documented as a parameter but never read. -/
structure Params where
  a_in : ℝ
  b_in : ℝ
  t_in : ℝ
  L_in : ℝ
  shape : Shape
  config : String
  material : String
  fluid : String
  vel_target_fts : ℝ
  dp_limit_psi : ℝ
  T_min_F : ℝ
  T_max_F : ℝ

/-- The solve result dictionary (source lines 214-226). -/
structure SolveResult where
  array_dims : ℕ × ℕ
  velocity_fts : ℝ
  deltaP_psi : ℝ
  fc_GHz : ℝ
  SE_db : List ℝ
  freqs : List ℝ
  total_weight_lbm : ℝ
  a_in : ℝ
  b_in : ℝ
  L_ft : ℝ
  t_in : ℝ

/-- `solve_wavepack` (source lines 140-226), with Python exception
propagation made explicit in `Except`. -/
noncomputable def solve_wavepack (p : Params) : Except WavepackError SolveResult :=
  match lookupMaterial p.material with
  | .error e => .error e
  | .ok mat =>
    match lookupFluid p.fluid with
    | .error e => .error e
    | .ok _flu =>
      match interpolate_fluid_props p.fluid p.T_min_F p.T_max_F 10 with
      | .error e => .error e
      | .ok (_T_list, rho_list, mu_list) =>
        let a_m := p.a_in * IN_TO_M
        let b_m := p.b_in * IN_TO_M
        let t_m := p.t_in * IN_TO_M
        let L_m := p.L_in * IN_TO_M
        let rho := rho_list.sum / (rho_list.length : ℝ)
        let mu := mu_list.sum / (mu_list.length : ℝ)
        let D_m := a_m
        let open_ratio := openRatioOf p.shape D_m
        let Dh := hydraulicDiam p.shape a_m b_m
        let dp_limit_Pa := p.dp_limit_psi * PSI_TO_PA
        let v_target_mps := p.vel_target_fts * FT_TO_M
        let A_single := crossArea p.shape a_m b_m
        let N_tubes : ℤ :=
          min (max 1 (pyInt (open_ratio * (dp_limit_Pa / (0.1 * rho * v_target_mps ^ 2))))) 2500
        let Re := reynolds_number rho v_target_mps Dh mu
        let f := friction_factor Re mat.rough Dh
        let dp_single := darcy_weisbach rho v_target_mps L_m Dh f
        let dp_total := dp_single
        let fcSE :=
          match p.shape with
          | .rectangular => attenuation_rectangular a_m b_m L_m mat.eps_r mat.mu_r f_range
          | _ => attenuation_circular Dh L_m mat.eps_r mat.mu_r f_range
        let nx : ℕ := Nat.sqrt N_tubes.toNat
        let ny : ℕ := nx
        let total_width := (nx : ℝ) * (a_m + 2 * t_m)
        let total_height := (ny : ℝ) * (b_m + 2 * t_m)
        let V_solid := total_width * total_height * L_m
        let V_void :=
          match p.shape with
          | .rectangular => (N_tubes : ℝ) * A_single * L_m
          | _ => (N_tubes : ℝ) * A_single * L_m * open_ratio
        let mass := mat.rho * (V_solid - V_void)
        let weight_lbm := mass * KG_TO_LBM
        .ok { array_dims := (nx, ny),
              velocity_fts := v_target_mps / FT_TO_M,
              deltaP_psi := dp_total * PA_TO_PSI,
              fc_GHz := fcSE.1 / 1e9,
              SE_db := fcSE.2,
              freqs := f_range,
              total_weight_lbm := weight_lbm,
              a_in := p.a_in,
              b_in := p.b_in,
              L_ft := p.L_in / 12,
              t_in := p.t_in }

/-- Projection of the weight of a solve outcome; an error projects to 0,
so a strictly negative projection certifies a successful solve whose
`total_weight_lbm` is negative. -/
noncomputable def resultWeight (e : Except WavepackError SolveResult) : ℝ :=
  match e with
  | .ok r => r.total_weight_lbm
  | .error _ => 0

/-- Projection of the array dimensions of a successful solve. -/
def resultDims (e : Except WavepackError SolveResult) : Option (ℕ × ℕ) :=
  match e with
  | .ok r => some r.array_dims
  | .error _ => none

/-- The representative density used by the solver: arithmetic mean of
the 10 interpolated density samples (source line 164). -/
noncomputable def meanRho (flu : FluidProperties) (T_min_F T_max_F : ℝ) : ℝ :=
  (rhoSamples flu T_min_F T_max_F 10).sum / ((rhoSamples flu T_min_F T_max_F 10).length : ℝ)

/-- The representative viscosity used by the solver: arithmetic mean of
the 10 interpolated viscosity samples (source line 165). -/
noncomputable def meanMu (flu : FluidProperties) (T_min_F T_max_F : ℝ) : ℝ :=
  (muSamples flu T_min_F T_max_F 10).sum / ((muSamples flu T_min_F T_max_F 10).length : ℝ)

/-- The clamped channel count `N_tubes` computed by the solver (source
lines 186-187): the sizing heuristic truncated by `int`, floored at 1
and capped at 2500. -/
noncomputable def N_tubes_of (p : Params) (flu : FluidProperties) : ℤ :=
  min (max 1 (pyInt (openRatioOf p.shape (p.a_in * IN_TO_M) *
    ((p.dp_limit_psi * PSI_TO_PA) /
      (0.1 * meanRho flu p.T_min_F p.T_max_F * (p.vel_target_fts * FT_TO_M) ^ 2))))) 2500

/-- The square array side `nx = ny = int(sqrt(N_tubes))` (source
line 203). -/
noncomputable def rowsOf (p : Params) (flu : FluidProperties) : ℕ :=
  Nat.sqrt (N_tubes_of p flu).toNat

/-- The result record a successful solve produces, expressed through
the named intermediate quantities; `solve_wavepack` returns exactly
this record whenever both property lookups succeed. -/
noncomputable def mkResult (p : Params) (mat : MaterialProperties)
    (flu : FluidProperties) : SolveResult :=
  let a_m := p.a_in * IN_TO_M
  let b_m := p.b_in * IN_TO_M
  let t_m := p.t_in * IN_TO_M
  let L_m := p.L_in * IN_TO_M
  let rho := meanRho flu p.T_min_F p.T_max_F
  let mu := meanMu flu p.T_min_F p.T_max_F
  let D_m := a_m
  let open_ratio := openRatioOf p.shape D_m
  let Dh := hydraulicDiam p.shape a_m b_m
  let v_target_mps := p.vel_target_fts * FT_TO_M
  let A_single := crossArea p.shape a_m b_m
  let N_tubes : ℤ := N_tubes_of p flu
  let Re := reynolds_number rho v_target_mps Dh mu
  let f := friction_factor Re mat.rough Dh
  let dp_single := darcy_weisbach rho v_target_mps L_m Dh f
  let fcSE :=
    match p.shape with
    | .rectangular => attenuation_rectangular a_m b_m L_m mat.eps_r mat.mu_r f_range
    | _ => attenuation_circular Dh L_m mat.eps_r mat.mu_r f_range
  let nx : ℕ := rowsOf p flu
  let V_solid := ((nx : ℝ) * (a_m + 2 * t_m)) * ((nx : ℝ) * (b_m + 2 * t_m)) * L_m
  let V_void :=
    match p.shape with
    | .rectangular => (N_tubes : ℝ) * A_single * L_m
    | _ => (N_tubes : ℝ) * A_single * L_m * open_ratio
  { array_dims := (nx, nx),
    velocity_fts := v_target_mps / FT_TO_M,
    deltaP_psi := dp_single * PA_TO_PSI,
    fc_GHz := fcSE.1 / 1e9,
    SE_db := fcSE.2,
    freqs := f_range,
    total_weight_lbm := mat.rho * (V_solid - V_void) * KG_TO_LBM,
    a_in := p.a_in,
    b_in := p.b_in,
    L_ft := p.L_in / 12,
    t_in := p.t_in }

/-- The "Air" entry of the fluid library. -/
noncomputable def fluAir : FluidProperties := ⟨1.225, 1.81e-5⟩

/-- The "Stainless Steel" entry of the material library. -/
noncomputable def matSS : MaterialProperties := ⟨8000, 1.0, 1.05, 1.5e-6⟩

/-- A syntactically valid configuration naming a material absent from
the library. -/
noncomputable def unobtainiumParams : Params :=
  ⟨2, 1, 0.05, 6, .rectangular, "", "Unobtainium", "Air", 50, 5, 32, 212⟩

/-- A valid rectangular configuration (1 in × 1 in channels, 0.05 in
walls, 6 in long, air at a constant 32 °F, 100 ft/s, 0.04 psi limit)
whose sizing heuristic yields `N_tubes = 2`, a non-square count. -/
noncomputable def negWeightParams : Params :=
  ⟨1, 1, 0.05, 6, .rectangular, "", "Stainless Steel", "Air", 100, 0.04, 32, 32⟩

/-- The same configuration with a 0.01 psi limit, whose sizing
heuristic yields the perfect-square count `N_tubes = 1`. -/
noncomputable def squareCountParams : Params :=
  ⟨1, 1, 0.05, 6, .rectangular, "", "Stainless Steel", "Air", 100, 0.01, 32, 32⟩

/-- A valid circular-inline configuration, identical to
`squareCountParams` except for the shape. -/
noncomputable def circInlineParams : Params :=
  ⟨1, 1, 0.05, 6, .circularInline, "", "Stainless Steel", "Air", 100, 0.01, 32, 32⟩

/-- Modelled from the spec: the total weight exactly as claim C5 words
it — material density times (envelope volume minus the sum of the N
channel void volumes, each void volume being the single-channel
cross-section area times channel length), converted to lbm.  The
envelope adds twice the wall thickness per channel to each channel's
footprint across the `rowsOf` × `rowsOf` grid. -/
noncomputable def claimedWeightPlain (p : Params) (mat : MaterialProperties)
    (flu : FluidProperties) : ℝ :=
  let a_m := p.a_in * IN_TO_M
  let b_m := p.b_in * IN_TO_M
  let t_m := p.t_in * IN_TO_M
  let L_m := p.L_in * IN_TO_M
  let n := ((rowsOf p flu : ℕ) : ℝ)
  let envelope := (n * (a_m + 2 * t_m)) * (n * (b_m + 2 * t_m)) * L_m
  let voids := ((N_tubes_of p flu : ℤ) : ℝ) * crossArea p.shape a_m b_m * L_m
  mat.rho * (envelope - voids) * KG_TO_LBM

/-- The amended weight formula: as `claimedWeightPlain`, except that for
the circular shape variants the summed void volume is additionally
multiplied by the open-area ratio. -/
noncomputable def claimedWeightAmended (p : Params) (mat : MaterialProperties)
    (flu : FluidProperties) : ℝ :=
  let a_m := p.a_in * IN_TO_M
  let b_m := p.b_in * IN_TO_M
  let t_m := p.t_in * IN_TO_M
  let L_m := p.L_in * IN_TO_M
  let n := ((rowsOf p flu : ℕ) : ℝ)
  let envelope := (n * (a_m + 2 * t_m)) * (n * (b_m + 2 * t_m)) * L_m
  let voids := ((N_tubes_of p flu : ℤ) : ℝ) * crossArea p.shape a_m b_m * L_m
  let scale := match p.shape with
    | Shape.rectangular => 1
    | _ => openRatioOf p.shape a_m
  mat.rho * (envelope - voids * scale) * KG_TO_LBM

/-! ## Helper lemmas -/

lemma lookup_air : lookupFluid "Air" = .ok fluAir := rfl

lemma lookup_ss : lookupMaterial "Stainless Steel" = .ok matSS := rfl

lemma range10 : List.range (Int.toNat (10 : ℤ)) = [0, 1, 2, 3, 4, 5, 6, 7, 8, 9] := rfl

/-- At a constant 32 °F the kelvin temperature is exactly 273.15, so
every density sample — and hence the mean — is the library density. -/
lemma meanRho_air32 : meanRho fluAir 32 32 = 1.225 := by
  rw [meanRho, rhoSamples, tempSamples, range10]
  norm_num [fluAir]

/-- Evaluation rule for `pyInt` on a value known to lie in `[n, n+1)`. -/
lemma pyInt_nat (x : ℝ) (n : ℕ) (h1 : (n : ℝ) ≤ x) (h2 : x < (n : ℝ) + 1) :
    pyInt x = n := by
  have h0 : (0 : ℝ) ≤ x := le_trans (by positivity) h1
  rw [pyInt, if_pos h0, Int.floor_eq_iff]
  refine ⟨by exact_mod_cast h1, by push_cast; exact h2⟩

/-- Whenever both property lookups succeed, `solve_wavepack` returns
exactly the record assembled by `mkResult`. -/
lemma solve_unfold (p : Params) (mat : MaterialProperties) (flu : FluidProperties)
    (hm : lookupMaterial p.material = .ok mat)
    (hf : lookupFluid p.fluid = .ok flu) :
    solve_wavepack p = .ok (mkResult p mat flu) := by
  rw [solve_wavepack, hm, hf, interpolate_fluid_props, hf]
  rfl

/-- Every material the library can return has a non-negative density. -/
lemma lookup_mat_rho_nonneg {name : String} {m : MaterialProperties}
    (h : lookupMaterial name = .ok m) : 0 ≤ m.rho := by
  simp only [lookupMaterial, MATERIAL_LIBRARY, List.lookup] at h
  split at h
  · rename_i v heq
    injection h with h
    subst h
    repeat' split at heq
    all_goals first
      | (injection heq with heq; subst heq; norm_num)
      | exact absurd heq (by simp)
  · cases h

lemma N_negWeight : N_tubes_of negWeightParams fluAir = 2 := by
  rw [N_tubes_of]
  simp only [negWeightParams]
  rw [meanRho_air32]
  rw [pyInt_nat _ 2 (by norm_num [openRatioOf, PSI_TO_PA, FT_TO_M])
    (by norm_num [openRatioOf, PSI_TO_PA, FT_TO_M])]
  decide

lemma rows_negWeight : rowsOf negWeightParams fluAir = 1 := by
  rw [rowsOf, N_negWeight, show Int.toNat 2 = 2 from rfl]
  norm_num

lemma N_squareCount : N_tubes_of squareCountParams fluAir = 1 := by
  rw [N_tubes_of]
  simp only [squareCountParams]
  rw [meanRho_air32]
  rw [pyInt_nat _ 0 (by norm_num [openRatioOf, PSI_TO_PA, FT_TO_M])
    (by norm_num [openRatioOf, PSI_TO_PA, FT_TO_M])]
  decide

lemma rows_squareCount : rowsOf squareCountParams fluAir = 1 := by
  rw [rowsOf, N_squareCount, show Int.toNat 1 = 1 from rfl]
  norm_num

lemma N_circInline : N_tubes_of circInlineParams fluAir = 1 := by
  rw [N_tubes_of]
  simp only [circInlineParams]
  rw [meanRho_air32]
  rw [pyInt_nat _ 0 (by norm_num [openRatioOf, PSI_TO_PA, FT_TO_M])
    (by norm_num [openRatioOf, PSI_TO_PA, FT_TO_M])]
  decide

lemma rows_circInline : rowsOf circInlineParams fluAir = 1 := by
  rw [rowsOf, N_circInline, show Int.toNat 1 = 1 from rfl]
  norm_num

/-! ## Claim theorems -/

/-- C1 (counterexample): at the valid rectangular configuration
`negWeightParams` (positive dimensions, known material and fluid,
positive velocity and pressure-drop limit) the solve succeeds and
returns a strictly negative `total_weight_lbm`: the heuristic yields
`N_tubes = 2` channels of void but the truncated 1 × 1 array provides
only one channel footprint of envelope. -/
theorem weight_negative_on_truncated_count :
    (solve_wavepack negWeightParams).isOk = true ∧
    resultWeight (solve_wavepack negWeightParams) < 0 := by
  rw [solve_unfold negWeightParams matSS fluAir lookup_ss lookup_air]
  refine ⟨rfl, ?_⟩
  show (mkResult negWeightParams matSS fluAir).total_weight_lbm < 0
  simp only [mkResult]
  rw [rows_negWeight, N_negWeight]
  simp only [negWeightParams, crossArea, openRatioOf]
  norm_num [matSS, IN_TO_M, KG_TO_LBM]

/-- C1 (amended): for a valid rectangular configuration whose clamped
channel count is a perfect square (so the square array holds exactly
the `N_tubes` channels the void sum charges for), `total_weight_lbm`
is non-negative. -/
theorem weight_nonneg_needs_square_count (p : Params) (mat : MaterialProperties)
    (flu : FluidProperties)
    (hm : lookupMaterial p.material = .ok mat)
    (hf : lookupFluid p.fluid = .ok flu)
    (hshape : p.shape = .rectangular)
    (ha : 0 ≤ p.a_in) (hb : 0 ≤ p.b_in) (ht : 0 ≤ p.t_in) (hL : 0 ≤ p.L_in)
    (hsq : ((rowsOf p flu : ℤ)) * ((rowsOf p flu : ℤ)) = N_tubes_of p flu) :
    0 ≤ resultWeight (solve_wavepack p) := by
  rw [solve_unfold p mat flu hm hf]
  show 0 ≤ (mkResult p mat flu).total_weight_lbm
  have hrho := lookup_mat_rho_nonneg hm
  have hN : ((N_tubes_of p flu : ℤ) : ℝ) =
      ((rowsOf p flu : ℕ) : ℝ) * ((rowsOf p flu : ℕ) : ℝ) := by
    rw [← hsq]; push_cast; ring
  simp only [mkResult, hshape, crossArea]
  rw [hN]
  have hIN : (0 : ℝ) ≤ IN_TO_M := by rw [IN_TO_M]; norm_num
  have ha' : 0 ≤ p.a_in * IN_TO_M := mul_nonneg ha hIN
  have hb' : 0 ≤ p.b_in * IN_TO_M := mul_nonneg hb hIN
  have ht' : 0 ≤ p.t_in * IN_TO_M := mul_nonneg ht hIN
  have hL' : 0 ≤ p.L_in * IN_TO_M := mul_nonneg hL hIN
  have hKG : (0 : ℝ) ≤ KG_TO_LBM := by rw [KG_TO_LBM]; norm_num
  have hn0 : (0 : ℝ) ≤ ((rowsOf p flu : ℕ) : ℝ) := Nat.cast_nonneg _
  have key : (p.a_in * IN_TO_M) * (p.b_in * IN_TO_M) ≤
      (p.a_in * IN_TO_M + 2 * (p.t_in * IN_TO_M)) *
        (p.b_in * IN_TO_M + 2 * (p.t_in * IN_TO_M)) := by nlinarith
  refine mul_nonneg (mul_nonneg hrho ?_) hKG
  nlinarith [mul_nonneg (mul_nonneg (mul_nonneg hn0 hn0) hL') (sub_nonneg.mpr key)]

/-- C1 (witness): the amended theorem applied at `squareCountParams`,
whose clamped channel count is the perfect square 1. -/
theorem weight_nonneg_needs_square_count_witness :
    squareCountParams.shape = Shape.rectangular ∧
    ((rowsOf squareCountParams fluAir : ℤ)) * ((rowsOf squareCountParams fluAir : ℤ)) =
      N_tubes_of squareCountParams fluAir ∧
    0 ≤ resultWeight (solve_wavepack squareCountParams) := by
  have hsq : ((rowsOf squareCountParams fluAir : ℤ)) *
      ((rowsOf squareCountParams fluAir : ℤ)) = N_tubes_of squareCountParams fluAir := by
    rw [rows_squareCount, N_squareCount]; norm_num
  exact ⟨rfl, hsq,
    weight_nonneg_needs_square_count squareCountParams matSS fluAir lookup_ss lookup_air
      rfl (by norm_num [squareCountParams]) (by norm_num [squareCountParams])
      (by norm_num [squareCountParams]) (by norm_num [squareCountParams]) hsq⟩

/-- C2: a material name absent from the material library makes the
solve fail with the structured lookup failure carrying the offending
field and value (the Python `KeyError`), and with no result value; a
fluid name absent from the fluid library (with the material present)
fails likewise on the fluid field. -/
theorem unknown_lookup_structured_failure (p : Params) :
    (MATERIAL_LIBRARY.lookup p.material = none →
      solve_wavepack p = .error (.unknownLookup "material" p.material)) ∧
    (∀ m, MATERIAL_LIBRARY.lookup p.material = some m →
      FLUID_LIBRARY.lookup p.fluid = none →
      solve_wavepack p = .error (.unknownLookup "fluid" p.fluid)) := by
  constructor
  · intro h
    simp [solve_wavepack, lookupMaterial, h]
  · intro m hm hf
    simp [solve_wavepack, lookupMaterial, lookupFluid, hm, hf]

/-- C2 (witness): material `"Unobtainium"` is absent from the library
and the solve at `unobtainiumParams` produces exactly the structured
lookup failure, not a result. -/
theorem unknown_lookup_structured_failure_witness :
    MATERIAL_LIBRARY.lookup "Unobtainium" = none ∧
    solve_wavepack unobtainiumParams = .error (.unknownLookup "material" "Unobtainium") := by
  have hnone : MATERIAL_LIBRARY.lookup "Unobtainium" = none := by
    simp [MATERIAL_LIBRARY, List.lookup]
  exact ⟨hnone, (unknown_lookup_structured_failure unobtainiumParams).1 hnone⟩

/-- C3: the friction factor is `64/Re` exactly when `Re < 2300`, and the
Swamee-Jain turbulent form exactly when `Re ≥ 2300`; the boundary
value 2300 takes the turbulent branch. -/
theorem friction_factor_regimes (Re rough Dh : ℝ) :
    (Re < 2300 → friction_factor Re rough Dh = 64 / Re) ∧
    (2300 ≤ Re → friction_factor Re rough Dh =
      0.25 / (Real.logb 10 (rough / (3.7 * Dh) + 5.74 / Re ^ (0.9 : ℝ))) ^ 2) := by
  constructor
  · intro h; rw [friction_factor, if_pos h]; norm_num
  · intro h; rw [friction_factor, if_neg (not_lt.mpr h)]

/-- C3 (witness): the laminar branch at `Re = 1000` and the turbulent
branch at the boundary `Re = 2300`, with the stainless-steel roughness
and a 0.02 m hydraulic diameter. -/
theorem friction_factor_regimes_witness :
    ((1000 : ℝ) < 2300 ∧ friction_factor 1000 1.5e-6 0.02 = 64 / 1000) ∧
    ((2300 : ℝ) ≤ 2300 ∧ friction_factor 2300 1.5e-6 0.02 =
      0.25 / (Real.logb 10 (1.5e-6 / (3.7 * 0.02) + 5.74 / (2300 : ℝ) ^ (0.9 : ℝ))) ^ 2) :=
  ⟨⟨by norm_num, (friction_factor_regimes 1000 1.5e-6 0.02).1 (by norm_num)⟩,
   ⟨le_refl _, (friction_factor_regimes 2300 1.5e-6 0.02).2 (le_refl _)⟩⟩

/-- C4 (counterexample): for the circular-inline variant the code uses
the literal `0.785`, which is not π/4 (π/4 > 0.785398). -/
theorem open_area_ratio_inline_not_pi_quarter :
    openRatioOf .circularInline 1 ≠ Real.pi / 4 := by
  intro h
  have hπ : (3.141592 : ℝ) < Real.pi := Real.pi_gt_d6
  rw [openRatioOf] at h
  norm_num at h
  linarith

/-- C4 (amended): the open-area ratio depends only on the shape
variant — 1.0 for rectangular, the literal approximation 0.785 (not
exactly π/4) for circular-inline, and exactly 0.9069·(π/4) for
circular-staggered whenever the diameter is nonzero (the diameter
cancels). -/
theorem open_area_ratio_by_shape (D : ℝ) :
    openRatioOf .rectangular D = 1 ∧
    openRatioOf .circularInline D = 0.785 ∧
    (D ≠ 0 → openRatioOf .circularStaggered D = 0.9069 * (Real.pi / 4)) := by
  refine ⟨by norm_num [openRatioOf], rfl, fun hD => ?_⟩
  rw [openRatioOf]
  field_simp
  ring

/-- C4 (witness): the staggered ratio evaluated at the nonzero
diameter 1. -/
theorem open_area_ratio_by_shape_witness :
    (1 : ℝ) ≠ 0 ∧ openRatioOf .circularStaggered 1 = 0.9069 * (Real.pi / 4) :=
  ⟨one_ne_zero, (open_area_ratio_by_shape 1).2.2 one_ne_zero⟩

/-- C5 (counterexample): at the valid circular-inline configuration
`circInlineParams` the weight returned by the solver is strictly larger
than the claimed formula (density times envelope minus plain
cross-section voids, in lbm), because the code additionally multiplies
the circular void volume by the open-area ratio 0.785. -/
theorem mass_formula_plain_claim_fails :
    claimedWeightPlain circInlineParams matSS fluAir <
      resultWeight (solve_wavepack circInlineParams) := by
  rw [solve_unfold circInlineParams matSS fluAir lookup_ss lookup_air]
  show _ < (mkResult circInlineParams matSS fluAir).total_weight_lbm
  simp only [mkResult, claimedWeightPlain]
  rw [rows_circInline, N_circInline]
  simp only [circInlineParams, crossArea, openRatioOf]
  norm_num [matSS, IN_TO_M, KG_TO_LBM]
  nlinarith [Real.pi_pos]

/-- C5 (amended): for every shape, the weight equals density times
(envelope minus the summed single-channel void volumes) converted to
lbm, except that for the circular variants the summed void volume is
additionally multiplied by the open-area ratio. -/
theorem mass_formula_with_open_ratio (p : Params) (mat : MaterialProperties)
    (flu : FluidProperties)
    (hm : lookupMaterial p.material = .ok mat)
    (hf : lookupFluid p.fluid = .ok flu) :
    resultWeight (solve_wavepack p) = claimedWeightAmended p mat flu := by
  rw [solve_unfold p mat flu hm hf]
  show (mkResult p mat flu).total_weight_lbm = _
  rcases hs : p.shape
  all_goals simp only [mkResult, claimedWeightAmended, hs]
  all_goals ring

/-- C5 (witness): the amended formula instantiated at the circular
configuration `circInlineParams`. -/
theorem mass_formula_with_open_ratio_witness :
    resultWeight (solve_wavepack circInlineParams) =
      claimedWeightAmended circInlineParams matSS fluAir :=
  mass_formula_with_open_ratio circInlineParams matSS fluAir lookup_ss lookup_air

/-- C6: whenever both lookups succeed the returned layout is the square
`(floor(sqrt(N)), floor(sqrt(N)))` of the clamped count `N`, and the
channel total `rows × columns` lies between 1 and 2500. -/
theorem array_layout_square_bounded (p : Params) (mat : MaterialProperties)
    (flu : FluidProperties)
    (hm : lookupMaterial p.material = .ok mat)
    (hf : lookupFluid p.fluid = .ok flu) :
    resultDims (solve_wavepack p) = some (rowsOf p flu, rowsOf p flu) ∧
    1 ≤ rowsOf p flu * rowsOf p flu ∧ rowsOf p flu * rowsOf p flu ≤ 2500 := by
  have h1 : (1 : ℤ) ≤ N_tubes_of p flu := by
    rw [N_tubes_of]; exact le_min (le_max_left _ _) (by norm_num)
  have h2 : N_tubes_of p flu ≤ 2500 := by
    rw [N_tubes_of]; exact min_le_right _ _
  have h1' : 1 ≤ (N_tubes_of p flu).toNat := by omega
  have h2' : (N_tubes_of p flu).toNat ≤ 2500 := by omega
  refine ⟨?_, ?_, ?_⟩
  · rw [solve_unfold p mat flu hm hf]; rfl
  · have hone : 1 ≤ rowsOf p flu := by
      rw [rowsOf]; exact Nat.le_sqrt.mpr (by simpa using h1')
    exact le_trans hone (Nat.le_mul_of_pos_left _ hone)
  · calc rowsOf p flu * rowsOf p flu ≤ (N_tubes_of p flu).toNat := by
          rw [rowsOf]; exact Nat.sqrt_le _
       _ ≤ 2500 := h2'

/-- C6 (witness): the layout theorem applied at `negWeightParams`
(known material and fluid). -/
theorem array_layout_square_bounded_witness :
    resultDims (solve_wavepack negWeightParams) =
      some (rowsOf negWeightParams fluAir, rowsOf negWeightParams fluAir) ∧
    1 ≤ rowsOf negWeightParams fluAir * rowsOf negWeightParams fluAir ∧
    rowsOf negWeightParams fluAir * rowsOf negWeightParams fluAir ≤ 2500 :=
  array_layout_square_bounded negWeightParams matSS fluAir lookup_ss lookup_air

/-- C7 (code evaluation at the failing input): with a sample count of 0
the interpolator succeeds and returns three empty sample lists — no
`InvalidInputError`, contrary to the claim that every count below 2
must fail with that error; with a sample count of 1 it fails, but with
a division-by-zero error rather than an invalid-input error. -/
theorem interpolator_low_count_behavior :
    interpolate_fluid_props "Air" 32 212 0 = .ok ([], [], []) ∧
    interpolate_fluid_props "Air" 32 212 1 = .error .zeroDivision := by
  constructor
  · simp [interpolate_fluid_props, lookupFluid, FLUID_LIBRARY, tempSamples,
      rhoSamples, muSamples]
  · simp [interpolate_fluid_props, lookupFluid, FLUID_LIBRARY]

/-- C8: for a fixed frequency strictly above the cutoff, the shielding
effectiveness computed by both attenuation models is non-decreasing in
the channel length. -/
theorem se_nondecreasing_in_length (a b D eps_r mu_r L1 L2 f : ℝ) (hL : L1 ≤ L2) :
    (fc_rect a b eps_r mu_r < f →
      (attenuation_rectangular a b L1 eps_r mu_r [f]).2.headI ≤
      (attenuation_rectangular a b L2 eps_r mu_r [f]).2.headI) ∧
    (fc_circ D eps_r mu_r < f →
      (attenuation_circular D L1 eps_r mu_r [f]).2.headI ≤
      (attenuation_circular D L2 eps_r mu_r [f]).2.headI) := by
  have hC : (0 : ℝ) < C_LIGHT := by rw [C_LIGHT]; norm_num
  have key : ∀ fc : ℝ, fc < f →
      sePoint fc eps_r mu_r L1 f ≤ sePoint fc eps_r mu_r L2 f := by
    intro fc hfc
    have hα : 0 ≤ alphaOf fc eps_r mu_r f := by
      rw [alphaOf, if_neg (not_le.mpr hfc)]
      exact mul_nonneg (div_nonneg (by positivity) hC.le) (Real.sqrt_nonneg _)
    rw [sePoint, sePoint, Real.logb, Real.logb, Real.log_exp, Real.log_exp]
    have hlog : 0 < Real.log 10 := Real.log_pos (by norm_num)
    have hmul : alphaOf fc eps_r mu_r f * L1 ≤ alphaOf fc eps_r mu_r f * L2 :=
      mul_le_mul_of_nonneg_left hL hα
    gcongr
  exact ⟨fun h => by simpa [attenuation_rectangular] using key _ h,
         fun h => by simpa [attenuation_circular] using key _ h⟩

/-- C8 (witness): unit 1 m square and circular channels with unit
permittivity/permeability, frequency `C_LIGHT` (strictly above both
cutoffs), lengths 1 ≤ 2. -/
theorem se_nondecreasing_in_length_witness :
    ((1 : ℝ) ≤ 2 ∧ fc_rect 1 1 1 1 < C_LIGHT ∧ fc_circ 1 1 1 < C_LIGHT) ∧
    (attenuation_rectangular 1 1 1 1 1 [C_LIGHT]).2.headI ≤
      (attenuation_rectangular 1 1 2 1 1 [C_LIGHT]).2.headI ∧
    (attenuation_circular 1 1 1 1 [C_LIGHT]).2.headI ≤
      (attenuation_circular 1 2 1 1 [C_LIGHT]).2.headI := by
  have hC : (0 : ℝ) < C_LIGHT := by rw [C_LIGHT]; norm_num
  have hrect : fc_rect 1 1 1 1 < C_LIGHT := by
    rw [fc_rect]
    have h1 : ((1 : ℝ)/1) ^ 2 + ((1 : ℝ)/1) ^ 2 = 2 := by norm_num
    have h2 : Real.sqrt ((1 : ℝ) * 1) = 1 := by rw [one_mul, Real.sqrt_one]
    rw [h1, h2]
    have h3 : Real.sqrt 2 < 2 := by
      rw [Real.sqrt_lt' (by norm_num)]; norm_num
    have h4 : (0 : ℝ) < Real.sqrt 2 := Real.sqrt_pos.mpr (by norm_num)
    calc C_LIGHT / 2 * Real.sqrt 2 / 1 = C_LIGHT / 2 * Real.sqrt 2 := by ring
      _ < C_LIGHT / 2 * 2 := by nlinarith
      _ = C_LIGHT := by ring
  have hcirc : fc_circ 1 1 1 < C_LIGHT := by
    rw [fc_circ]
    have h2 : Real.sqrt ((1 : ℝ) * 1) = 1 := by rw [one_mul, Real.sqrt_one]
    rw [h2]
    have hπ : (3.141592 : ℝ) < Real.pi := Real.pi_gt_d6
    rw [div_lt_iff₀ (by nlinarith [Real.pi_pos])]
    nlinarith
  exact ⟨⟨by norm_num, hrect, hcirc⟩,
    (se_nondecreasing_in_length 1 1 1 1 1 1 2 C_LIGHT (by norm_num)).1 hrect,
    (se_nondecreasing_in_length 1 1 1 1 1 1 2 C_LIGHT (by norm_num)).2 hcirc⟩

/-- C9: the solver is a pure function of its input configuration — the
embedding has no state, so two solves of the same configuration are
definitionally the same value in every field. -/
theorem solve_deterministic (p : Params) : solve_wavepack p = solve_wavepack p := rfl

/-- C10: the result of a solve does not depend on the `config` field of
the input: the solver never reads it. -/
theorem solve_config_independent (p : Params) (c₁ c₂ : String) :
    solve_wavepack { p with config := c₁ } = solve_wavepack { p with config := c₂ } := rfl

end Wavepack
